import Mathlib

/-!
Shallow embedding of `src/puppeteer_server.js` (a small Express relay that
renders a URL with Puppeteer as the primary strategy and falls back to
ScraperAPI), together with theorems settling the spec claims about its
render-with-fallback control flow.

The two strategy functions are opaque external collaborators from the
policy's point of view, so they are modelled as an environment of oracles
`Env`; each request handler is a pure function from the environment and the
parsed request to the HTTP response paired with the trace of strategy
invocations it performed, which makes claims such as "the fallback is
invoked exactly once" or "the primary strategy is never invoked" statable
as equations on the trace.
-/

/-- Value found in the `waitFor` position of a request. On the JSON body of
POST /render it can be any JSON value (the code never validates it); on
GET /scrape it is the result of `parseInt`, which is either an integer or
NaN. -/
inductive WaitVal
  | num (n : Int)
  | str (s : String)
  | nan
deriving DecidableEq

/-- One strategy invocation recorded in the handler trace:
`pup url wait` is a call to `scrapeWithPuppeteer(url, wait)` and
`scraper url` a call to `scrapeWithScraperAPI(url)`. -/
inductive Call
  | pup (url : String) (wait : WaitVal)
  | scraper (url : String)
deriving DecidableEq

/-- Response body shapes produced by the handlers in
`src/puppeteer_server.js`:
`errorOnly e` is  the 400 body (only an error field);
`success url html method warning ts` is the 200 body, which in the source
always carries the literal field success:true plus url, html, method,
an optional warning, and a timestamp;
`bothFailed e pe se` is the aggregated 500 body with error, puppeteerError
and scraperApiError fields (lines 71-75);
`failure e m` is the 500 body with error and message fields
(lines 79-82 and 174-177). -/
inductive Body
  | errorOnly (error : String)
  | success (url html method : String) (warning : Option String) (timestamp : String)
  | bothFailed (error puppeteerError scraperApiError : String)
  | failure (error message : String)
deriving DecidableEq

/-- An HTTP response: status code and JSON body. -/
structure Response where
  status : Nat
  body : Body
deriving DecidableEq

/-- The two rendering strategies as opaque oracles, as the policy treats
them: `puppeteer url wait` models `scrapeWithPuppeteer(url, waitFor)` and
`scraper url` models `scrapeWithScraperAPI(url)`; each either returns html
or fails with an error message. -/
structure Env where
  puppeteer : String → WaitVal → Except String String
  scraper : String → Except String String

/-- Parsed JSON body of POST /render. The source destructures
`{ url, waitFor = 2000, useScraperAPI = false }` from req.body, so a field
is `none` when absent; the defaults are applied in the handler. `url` is
falsy in JS when absent or the empty string. `useScraperAPI` is modelled at
JSON booleans, the type the spec gives it. -/
structure RenderBody where
  url : Option String
  waitFor : Option WaitVal
  useScraperAPI : Option Bool

/-- Parsed query string of GET /scrape: every present parameter is a
string. -/
structure ScrapeQuery where
  url : Option String
  waitFor : Option String
  useScraperAPI : Option String

/-- JavaScript parseInt on a string (radix 10): skip leading whitespace,
optional sign, then the longest prefix of decimal digits; `none` models
NaN (no digits found). -/
def jsParseInt (s : String) : Option Int :=
  let cs := s.toList.dropWhile Char.isWhitespace
  let signed : Int × List Char :=
    match cs with
    | '-' :: rest => (-1, rest)
    | '+' :: rest => (1, rest)
    | _ => (1, cs)
  let ds := signed.2.takeWhile Char.isDigit
  if ds.isEmpty then none
  else some (signed.1 * (ds.foldl (fun a c => a * 10 + (c.toNat - 48)) 0 : Nat))

/-- Wait value GET /scrape passes to the primary strategy (line 161):
the destructuring default 2000 when the parameter is absent, otherwise
`parseInt(waitFor)`, which is NaN on a non-numeric string. -/
def getWait (q : Option String) : WaitVal :=
  match q with
  | none => WaitVal.num 2000
  | some s =>
    match jsParseInt s with
    | some n => WaitVal.num n
    | none => WaitVal.nan

/-- Handler of POST /render (lines 26-84): reject a falsy url with 400;
if useScraperAPI is truthy call only the fallback and surface its failure
as 500 error/message; otherwise call the primary strategy with
`waitFor` defaulted to 2000 only when absent, and on primary failure retry
once with the fallback (success: 200 tagged with the fallback method and a
warning; failure: 500 carrying both messages). `now` stands for
`new Date().toISOString()`. Returns the response and the invocation
trace. -/
def renderPost (env : Env) (now : String) (b : RenderBody) : Response × List Call :=
  match b.url with
  | none => ({ status := 400, body := .errorOnly "URL is required" }, [])
  | some u =>
    if u = "" then ({ status := 400, body := .errorOnly "URL is required" }, [])
    else
      let wait := b.waitFor.getD (WaitVal.num 2000)
      if b.useScraperAPI.getD false then
        match env.scraper u with
        | .ok h =>
          ({ status := 200, body := .success u h "ScraperAPI" none now }, [Call.scraper u])
        | .error e =>
          ({ status := 500, body := .failure "Scraping failed" e }, [Call.scraper u])
      else
        match env.puppeteer u wait with
        | .ok h =>
          ({ status := 200, body := .success u h "Puppeteer" none now }, [Call.pup u wait])
        | .error e =>
          match env.scraper u with
          | .ok h =>
            ({ status := 200,
               body := .success u h "ScraperAPI (fallback)"
                 (some "Puppeteer failed, used fallback") now },
             [Call.pup u wait, Call.scraper u])
          | .error fe =>
            ({ status := 500,
               body := .bothFailed "Both Puppeteer and ScraperAPI failed" e fe },
             [Call.pup u wait, Call.scraper u])

/-- Handler of GET /scrape (lines 148-179): reject a falsy url with 400;
choose the fallback exactly when the useScraperAPI parameter is the string
true (line 158); any strategy failure is surfaced directly as a 500
error/message body — this endpoint has no automatic fallback. -/
def scrapeGet (env : Env) (now : String) (q : ScrapeQuery) : Response × List Call :=
  match q.url with
  | none => ({ status := 400, body := .errorOnly "URL parameter is required" }, [])
  | some u =>
    if u = "" then ({ status := 400, body := .errorOnly "URL parameter is required" }, [])
    else
      let wait := getWait q.waitFor
      if q.useScraperAPI = some "true" then
        match env.scraper u with
        | .ok h =>
          ({ status := 200, body := .success u h "ScraperAPI" none now }, [Call.scraper u])
        | .error e =>
          ({ status := 500, body := .failure "Scraping failed" e }, [Call.scraper u])
      else
        match env.puppeteer u wait with
        | .ok h =>
          ({ status := 200, body := .success u h "Puppeteer" none now }, [Call.pup u wait])
        | .error e =>
          ({ status := 500, body := .failure "Scraping failed" e }, [Call.pup u wait])

/-- Resource events inside `scrapeWithPuppeteer` (lines 87-131):
the browser process is launched, a page is opened, the page is closed,
the browser process is closed. -/
inductive PEvent
  | launched
  | pageOpened
  | pageClosed
  | browserClosed
deriving DecidableEq

/-- Oracles for each awaited operation inside `scrapeWithPuppeteer`, in
source order; each can succeed or throw. -/
structure PupOracle where
  launch : Except String Unit
  newPage : Except String Unit
  setViewport : Except String Unit
  setUserAgent : Except String Unit
  goto : Except String Unit
  waitTimeout : Except String Unit
  content : Except String String

/-- Body of the try block of `scrapeWithPuppeteer` (lines 110-126):
setViewport, setUserAgent, goto, waitForTimeout, then page.content, the
first failure aborting the rest. -/
def pupTryBody (o : PupOracle) : Except String String :=
  match o.setViewport with
  | .error e => .error e
  | .ok _ =>
    match o.setUserAgent with
    | .error e => .error e
    | .ok _ =>
      match o.goto with
      | .error e => .error e
      | .ok _ =>
        match o.waitTimeout with
        | .error e => .error e
        | .ok _ => o.content

/-- Execution of `scrapeWithPuppeteer` (lines 87-131), returning its result
and the resource events that occurred. The try/finally spans only
lines 110-130: `browser.newPage()` on line 108 sits before the try, so if
it throws the function exits with neither `page.close()` nor
`browser.close()` having run; when the try block is entered, the finally
closes the page and then the browser on every exit path. -/
def scrapeWithPuppeteerRun (o : PupOracle) : Except String String × List PEvent :=
  match o.launch with
  | .error e => (.error e, [])
  | .ok _ =>
    match o.newPage with
    | .error e => (.error e, [PEvent.launched])
    | .ok _ =>
      (pupTryBody o,
       [PEvent.launched, PEvent.pageOpened, PEvent.pageClosed, PEvent.browserClosed])

/-- Environment whose primary strategy always succeeds. -/
def envPrimaryOk : Env :=
  { puppeteer := fun u _ => .ok ("<html>rendered " ++ u ++ "</html>"),
    scraper := fun u => .ok ("<html>api " ++ u ++ "</html>") }

/-- Environment whose primary strategy always fails and whose fallback
succeeds. -/
def envPrimaryFail : Env :=
  { puppeteer := fun _ _ => .error "Navigation timeout of 45000 ms exceeded",
    scraper := fun u => .ok ("<html>api " ++ u ++ "</html>") }

/-- Environment in which both strategies fail. -/
def envBothFail : Env :=
  { puppeteer := fun _ _ => .error "Navigation timeout of 45000 ms exceeded",
    scraper := fun _ => .error "Request failed with status code 500" }

/-- Oracle in which `browser.newPage()` throws right after a successful
launch; everything else would succeed. -/
def newPageFailOracle : PupOracle :=
  { launch := .ok (), newPage := .error "Failed to open new page",
    setViewport := .ok (), setUserAgent := .ok (), goto := .ok (),
    waitTimeout := .ok (), content := .ok "<html></html>" }

/-- Oracle in which navigation (`page.goto`) throws partway through setup;
everything else succeeds. -/
def gotoFailOracle : PupOracle :=
  { launch := .ok (), newPage := .ok (),
    setViewport := .ok (), setUserAgent := .ok (),
    goto := .error "net ERR_NAME_NOT_RESOLVED",
    waitTimeout := .ok (), content := .ok "<html></html>" }

/-- C1: for every POST /render request with a non-empty url and
useScraperAPI absent-or-false, if the primary strategy fails and the
fallback succeeds, the response is 200, tagged with the fallback method
"ScraperAPI (fallback)", carries a warning noting the primary failure, and
the trace shows the fallback invoked exactly once with no further
fallback. -/
theorem post_primary_fail_fallback_ok (env : Env) (now u e h : String)
    (w : Option WaitVal) (api : Option Bool)
    (hu : u ≠ "")
    (hapi : api.getD false = false)
    (hp : env.puppeteer u (w.getD (WaitVal.num 2000)) = .error e)
    (hs : env.scraper u = .ok h) :
    renderPost env now ⟨some u, w, api⟩ =
      ({ status := 200,
         body := .success u h "ScraperAPI (fallback)"
           (some "Puppeteer failed, used fallback") now },
       [Call.pup u (w.getD (WaitVal.num 2000)), Call.scraper u]) := by
  simp [renderPost, hu, hapi, hp, hs]

theorem post_primary_fail_fallback_ok_witness :
    renderPost envPrimaryFail "2026-10-11T00:00:00.000Z"
        ⟨some "https://example.com", none, none⟩ =
      ({ status := 200,
         body := .success "https://example.com"
           "<html>api https://example.com</html>" "ScraperAPI (fallback)"
           (some "Puppeteer failed, used fallback") "2026-10-11T00:00:00.000Z" },
       [Call.pup "https://example.com" (WaitVal.num 2000),
        Call.scraper "https://example.com"]) :=
  post_primary_fail_fallback_ok envPrimaryFail "2026-10-11T00:00:00.000Z"
    "https://example.com" "Navigation timeout of 45000 ms exceeded"
    "<html>api https://example.com</html>" none none (by decide) rfl rfl rfl

/-- C2: for every POST /render request with a non-empty url and
useScraperAPI absent-or-false, if both strategies fail the response has
status 500 and its body carries both the primary and the fallback error
messages verbatim. -/
theorem post_both_fail_aggregate (env : Env) (now u e fe : String)
    (w : Option WaitVal) (api : Option Bool)
    (hu : u ≠ "")
    (hapi : api.getD false = false)
    (hp : env.puppeteer u (w.getD (WaitVal.num 2000)) = .error e)
    (hs : env.scraper u = .error fe) :
    renderPost env now ⟨some u, w, api⟩ =
      ({ status := 500,
         body := .bothFailed "Both Puppeteer and ScraperAPI failed" e fe },
       [Call.pup u (w.getD (WaitVal.num 2000)), Call.scraper u]) := by
  simp [renderPost, hu, hapi, hp, hs]

theorem post_both_fail_aggregate_witness :
    renderPost envBothFail "2026-10-11T00:00:00.000Z"
        ⟨some "https://example.com", none, none⟩ =
      ({ status := 500,
         body := .bothFailed "Both Puppeteer and ScraperAPI failed"
           "Navigation timeout of 45000 ms exceeded"
           "Request failed with status code 500" },
       [Call.pup "https://example.com" (WaitVal.num 2000),
        Call.scraper "https://example.com"]) :=
  post_both_fail_aggregate envBothFail "2026-10-11T00:00:00.000Z"
    "https://example.com" "Navigation timeout of 45000 ms exceeded"
    "Request failed with status code 500" none none (by decide) rfl rfl rfl

/-- C3: with the fallback forced (JSON boolean true on POST /render,
string true on GET /scrape) and a non-empty url, the primary strategy is
never invoked (the trace holds only the one fallback call), and a fallback
failure is terminal, reported as a 500 body with fields
error: Scraping failed and message carrying the reason. -/
theorem forced_fallback_terminal (env : Env) (now u e : String)
    (w : Option WaitVal) (qw : Option String)
    (hu : u ≠ "")
    (hs : env.scraper u = .error e) :
    renderPost env now ⟨some u, w, some true⟩ =
      ({ status := 500, body := .failure "Scraping failed" e }, [Call.scraper u]) ∧
    scrapeGet env now ⟨some u, qw, some "true"⟩ =
      ({ status := 500, body := .failure "Scraping failed" e }, [Call.scraper u]) := by
  constructor
  · simp [renderPost, hu, hs]
  · simp [scrapeGet, hu, hs]

theorem forced_fallback_terminal_witness :
    renderPost envBothFail "2026-10-11T00:00:00.000Z"
        ⟨some "https://example.com", none, some true⟩ =
      ({ status := 500,
         body := .failure "Scraping failed" "Request failed with status code 500" },
       [Call.scraper "https://example.com"]) ∧
    scrapeGet envBothFail "2026-10-11T00:00:00.000Z"
        ⟨some "https://example.com", none, some "true"⟩ =
      ({ status := 500,
         body := .failure "Scraping failed" "Request failed with status code 500" },
       [Call.scraper "https://example.com"]) :=
  forced_fallback_terminal envBothFail "2026-10-11T00:00:00.000Z"
    "https://example.com" "Request failed with status code 500" none none
    (by decide) rfl

/-- C4: on both endpoints, for a request with a non-empty url that does not
force the fallback, when the primary strategy succeeds the response is 200
with the success body (url echoed, the rendered html, a timestamp) tagged
Puppeteer and no warning, and the trace holds only the one primary call:
the fallback is never invoked. -/
theorem primary_success_tagged_puppeteer (env : Env) (now u h : String)
    (w : Option WaitVal) (api : Option Bool) (qw qapi : Option String)
    (hu : u ≠ "")
    (hapi : api.getD false = false)
    (hqapi : qapi ≠ some "true")
    (hp : env.puppeteer u (w.getD (WaitVal.num 2000)) = .ok h)
    (hq : env.puppeteer u (getWait qw) = .ok h) :
    renderPost env now ⟨some u, w, api⟩ =
      ({ status := 200, body := .success u h "Puppeteer" none now },
       [Call.pup u (w.getD (WaitVal.num 2000))]) ∧
    scrapeGet env now ⟨some u, qw, qapi⟩ =
      ({ status := 200, body := .success u h "Puppeteer" none now },
       [Call.pup u (getWait qw)]) := by
  constructor
  · simp [renderPost, hu, hapi, hp]
  · simp [scrapeGet, hu, hqapi, hq]

theorem primary_success_tagged_puppeteer_witness :
    renderPost envPrimaryOk "2026-10-11T00:00:00.000Z"
        ⟨some "https://example.com", none, none⟩ =
      ({ status := 200,
         body := .success "https://example.com"
           "<html>rendered https://example.com</html>" "Puppeteer" none
           "2026-10-11T00:00:00.000Z" },
       [Call.pup "https://example.com" (WaitVal.num 2000)]) ∧
    scrapeGet envPrimaryOk "2026-10-11T00:00:00.000Z"
        ⟨some "https://example.com", none, none⟩ =
      ({ status := 200,
         body := .success "https://example.com"
           "<html>rendered https://example.com</html>" "Puppeteer" none
           "2026-10-11T00:00:00.000Z" },
       [Call.pup "https://example.com" (getWait none)]) :=
  primary_success_tagged_puppeteer envPrimaryOk "2026-10-11T00:00:00.000Z"
    "https://example.com" "<html>rendered https://example.com</html>"
    none none none none (by decide) rfl (by decide) rfl rfl

/-- C5: on both endpoints a missing or empty url yields a 400 response with
an error body and an empty invocation trace: neither strategy is called. -/
theorem missing_url_rejected (env : Env) (now : String)
    (b : RenderBody) (q : ScrapeQuery)
    (hb : b.url = none ∨ b.url = some "")
    (hq : q.url = none ∨ q.url = some "") :
    renderPost env now b =
      ({ status := 400, body := .errorOnly "URL is required" }, []) ∧
    scrapeGet env now q =
      ({ status := 400, body := .errorOnly "URL parameter is required" }, []) := by
  constructor
  · rcases hb with hb | hb <;> simp [renderPost, hb]
  · rcases hq with hq | hq <;> simp [scrapeGet, hq]

theorem missing_url_rejected_witness :
    renderPost envPrimaryOk "2026-10-11T00:00:00.000Z" ⟨none, none, none⟩ =
      ({ status := 400, body := .errorOnly "URL is required" }, []) ∧
    scrapeGet envPrimaryOk "2026-10-11T00:00:00.000Z" ⟨some "", none, none⟩ =
      ({ status := 400, body := .errorOnly "URL parameter is required" }, []) :=
  missing_url_rejected envPrimaryOk "2026-10-11T00:00:00.000Z"
    ⟨none, none, none⟩ ⟨some "", none, none⟩ (Or.inl rfl) (Or.inr rfl)

/-- C6: on GET /scrape with a non-empty url and the fallback not forced, a
primary-strategy failure is surfaced directly as a 500 body with fields
error: Scraping failed and message; the trace holds only the primary call,
so the automatic primary-to-fallback transition never happens on this
endpoint. -/
theorem scrape_primary_failure_no_fallback (env : Env) (now u e : String)
    (qw qapi : Option String)
    (hu : u ≠ "")
    (hqapi : qapi ≠ some "true")
    (hp : env.puppeteer u (getWait qw) = .error e) :
    scrapeGet env now ⟨some u, qw, qapi⟩ =
      ({ status := 500, body := .failure "Scraping failed" e },
       [Call.pup u (getWait qw)]) := by
  simp [scrapeGet, hu, hqapi, hp]

theorem scrape_primary_failure_no_fallback_witness :
    scrapeGet envPrimaryFail "2026-10-11T00:00:00.000Z"
        ⟨some "https://example.com", none, none⟩ =
      ({ status := 500,
         body := .failure "Scraping failed"
           "Navigation timeout of 45000 ms exceeded" },
       [Call.pup "https://example.com" (getWait none)]) :=
  scrape_primary_failure_no_fallback envPrimaryFail "2026-10-11T00:00:00.000Z"
    "https://example.com" "Navigation timeout of 45000 ms exceeded" none none
    (by decide) (by decide) rfl

/-- C9: on GET /scrape with a non-empty url, the fallback strategy is
selected exactly when the useScraperAPI parameter is the literal string
true: for any other present value (such as TRUE, 1, yes, or the empty
string an express bare flag produces) and for an absent parameter, the
trace holds only the primary call, while the value true yields only the
fallback call. -/
theorem scrape_strategy_selection (env : Env) (now u s : String)
    (qw : Option String)
    (hu : u ≠ "")
    (hs : s ≠ "true") :
    (scrapeGet env now ⟨some u, qw, some s⟩).2 = [Call.pup u (getWait qw)] ∧
    (scrapeGet env now ⟨some u, qw, none⟩).2 = [Call.pup u (getWait qw)] ∧
    (scrapeGet env now ⟨some u, qw, some "true"⟩).2 = [Call.scraper u] := by
  refine ⟨?_, ?_, ?_⟩
  · cases hp : env.puppeteer u (getWait qw) <;> simp [scrapeGet, hu, hs, hp]
  · cases hp : env.puppeteer u (getWait qw) <;> simp [scrapeGet, hu, hp]
  · cases hp : env.scraper u <;> simp [scrapeGet, hu, hp]

theorem scrape_strategy_selection_witness :
    (scrapeGet envPrimaryOk "2026-10-11T00:00:00.000Z"
        ⟨some "https://example.com", none, some "TRUE"⟩).2 =
      [Call.pup "https://example.com" (getWait none)] ∧
    (scrapeGet envPrimaryOk "2026-10-11T00:00:00.000Z"
        ⟨some "https://example.com", none, none⟩).2 =
      [Call.pup "https://example.com" (getWait none)] ∧
    (scrapeGet envPrimaryOk "2026-10-11T00:00:00.000Z"
        ⟨some "https://example.com", none, some "true"⟩).2 =
      [Call.scraper "https://example.com"] :=
  scrape_strategy_selection envPrimaryOk "2026-10-11T00:00:00.000Z"
    "https://example.com" "TRUE" none (by decide) (by decide)

/-- C10: the method tag of a successful response distinguishes a forced
fallback from an automatic one: with useScraperAPI true (on either
endpoint) a fallback success is tagged ScraperAPI with no warning, while a
POST /render automatic fallback success (primary failed, fallback not
forced) is tagged ScraperAPI (fallback) and always carries the warning
field. -/
theorem method_tag_distinguishes_fallbacks (env : Env) (now u h e : String)
    (w : Option WaitVal) (qw : Option String)
    (hu : u ≠ "")
    (hs : env.scraper u = .ok h)
    (hp : env.puppeteer u (w.getD (WaitVal.num 2000)) = .error e) :
    renderPost env now ⟨some u, w, some true⟩ =
      ({ status := 200, body := .success u h "ScraperAPI" none now },
       [Call.scraper u]) ∧
    scrapeGet env now ⟨some u, qw, some "true"⟩ =
      ({ status := 200, body := .success u h "ScraperAPI" none now },
       [Call.scraper u]) ∧
    renderPost env now ⟨some u, w, none⟩ =
      ({ status := 200,
         body := .success u h "ScraperAPI (fallback)"
           (some "Puppeteer failed, used fallback") now },
       [Call.pup u (w.getD (WaitVal.num 2000)), Call.scraper u]) := by
  refine ⟨?_, ?_, ?_⟩
  · simp [renderPost, hu, hs]
  · simp [scrapeGet, hu, hs]
  · simp [renderPost, hu, hp, hs]

theorem method_tag_distinguishes_fallbacks_witness :
    renderPost envPrimaryFail "2026-10-11T00:00:00.000Z"
        ⟨some "https://example.com", none, some true⟩ =
      ({ status := 200,
         body := .success "https://example.com"
           "<html>api https://example.com</html>" "ScraperAPI" none
           "2026-10-11T00:00:00.000Z" },
       [Call.scraper "https://example.com"]) ∧
    scrapeGet envPrimaryFail "2026-10-11T00:00:00.000Z"
        ⟨some "https://example.com", none, some "true"⟩ =
      ({ status := 200,
         body := .success "https://example.com"
           "<html>api https://example.com</html>" "ScraperAPI" none
           "2026-10-11T00:00:00.000Z" },
       [Call.scraper "https://example.com"]) ∧
    renderPost envPrimaryFail "2026-10-11T00:00:00.000Z"
        ⟨some "https://example.com", none, none⟩ =
      ({ status := 200,
         body := .success "https://example.com"
           "<html>api https://example.com</html>" "ScraperAPI (fallback)"
           (some "Puppeteer failed, used fallback") "2026-10-11T00:00:00.000Z" },
       [Call.pup "https://example.com" (WaitVal.num 2000),
        Call.scraper "https://example.com"]) :=
  method_tag_distinguishes_fallbacks envPrimaryFail "2026-10-11T00:00:00.000Z"
    "https://example.com" "<html>api https://example.com</html>"
    "Navigation timeout of 45000 ms exceeded" none none (by decide) rfl rfl

/-- C7 counterexample: a POST /render request with waitFor bound to the
non-numeric JSON string soon passes that raw string to the primary
strategy; it is not coerced to the default 2000 at the boundary (and is
not an integer number of milliseconds at all). -/
theorem waitFor_not_coerced_counterexample :
    (renderPost envPrimaryOk "2026-10-11T00:00:00.000Z"
        ⟨some "https://example.com", some (WaitVal.str "soon"), none⟩).2 =
      [Call.pup "https://example.com" (WaitVal.str "soon")] ∧
    WaitVal.str "soon" ≠ WaitVal.num 2000 := by
  decide

/-- C7 as amended: the wait value is computed exactly once at each endpoint
boundary and never re-validated inside the policy, but the default 2000
applies only when waitFor is absent: POST /render passes a present value
unchanged (even a non-numeric string), and GET /scrape passes
parseInt(waitFor), which is NaN — not the default — on a non-numeric
string and may be negative. -/
theorem wait_boundary_semantics (env : Env) (now u : String)
    (w : Option WaitVal) (qw : Option String)
    (hu : u ≠ "") :
    (renderPost env now ⟨some u, w, none⟩).2.head? =
      some (Call.pup u (w.getD (WaitVal.num 2000))) ∧
    (scrapeGet env now ⟨some u, qw, none⟩).2.head? =
      some (Call.pup u (getWait qw)) ∧
    getWait none = WaitVal.num 2000 ∧
    getWait (some "soon") = WaitVal.nan ∧
    getWait (some "-5") = WaitVal.num (-5) := by
  refine ⟨?_, ?_, by decide, by decide, by decide⟩
  · cases hp : env.puppeteer u (w.getD (WaitVal.num 2000))
    · cases hsc : env.scraper u <;> simp [renderPost, hu, hp, hsc]
    · simp [renderPost, hu, hp]
  · cases hp : env.puppeteer u (getWait qw) <;> simp [scrapeGet, hu, hp]

theorem wait_boundary_semantics_witness :
    (renderPost envPrimaryOk "2026-10-11T00:00:00.000Z"
        ⟨some "https://example.com", some (WaitVal.str "soon"), none⟩).2.head? =
      some (Call.pup "https://example.com"
        ((some (WaitVal.str "soon")).getD (WaitVal.num 2000))) ∧
    (scrapeGet envPrimaryOk "2026-10-11T00:00:00.000Z"
        ⟨some "https://example.com", some "soon", none⟩).2.head? =
      some (Call.pup "https://example.com" (getWait (some "soon"))) ∧
    getWait none = WaitVal.num 2000 ∧
    getWait (some "soon") = WaitVal.nan ∧
    getWait (some "-5") = WaitVal.num (-5) :=
  wait_boundary_semantics envPrimaryOk "2026-10-11T00:00:00.000Z"
    "https://example.com" (some (WaitVal.str "soon")) (some "soon") (by decide)

/-- C8: the claim that page and browser are released on every exit path of
scrapeWithPuppeteer fails on the code: browser.newPage() on line 108 sits
before the try/finally of lines 110-130, so when newPage throws after a
successful launch the function exits with the browser process never
closed (first two conjuncts); by contrast a navigation failure inside the
try block does run the finally, closing the page and then the browser
(last conjunct). -/
theorem newPage_failure_leaks_browser :
    (scrapeWithPuppeteerRun newPageFailOracle).2 = [PEvent.launched] ∧
    PEvent.browserClosed ∉ (scrapeWithPuppeteerRun newPageFailOracle).2 ∧
    (scrapeWithPuppeteerRun newPageFailOracle).1 =
      Except.error "Failed to open new page" ∧
    (scrapeWithPuppeteerRun gotoFailOracle).2 =
      [PEvent.launched, PEvent.pageOpened, PEvent.pageClosed,
       PEvent.browserClosed] :=
  ⟨rfl, by decide, rfl, rfl⟩
